import Mathlib

/-!
Verification of the ECAD-processor ingestion pipeline.

This file gives a shallow embedding, in Lean 4, of the parts of the
Rust sources of the ECAD archive processor that the verified claims
concern: the weather-record data model and its quality assessment
(`src/models/weather.rs`), the temperature-file readers
(`src/readers/temperature_reader.rs`), the per-archive processor and
its integrity report (`src/archive/processor.rs`), the multi-archive
merger (`src/archive/multi_processor.rs`), the archive inspector's
date-range estimation (`src/archive/inspector.rs`), the consolidated
integrity checker (`src/processors/integrity_checker.rs`) and the
columnar writer's control flow (`src/writers/parquet_writer.rs`).

Modelling conventions:
* `f32`/`f64` values are embedded as exact rationals (`ℚ`).  Every
  numeric value in the pipeline originates from integer tenths of a
  unit divided by ten, and is only ever compared against decimal
  constants, so the embedding is exact.
* Rust `String`s stay `String`; because the byte-level string
  primitives of the Lean runtime do not reduce in the kernel, the
  character-level operations used by the sources (`split`, `trim`,
  `contains`, integer parsing) are re-implemented over `List Char`.
* `chrono::NaiveDate` is embedded as a year/month/day triple of
  naturals; `%Y%m%d` parsing is modelled as eight digits followed by
  calendar validation, which agrees with chrono on the data format.
* `HashMap` iteration order is unspecified in Rust; maps are embedded
  as association lists in insertion order.  The only claims about map
  contents are order-insensitive or follow an explicit sort.
* Fallible Rust functions returning `Result` are embedded with
  `Except`; error messages are carried structurally (the constructor
  records the format template and its numeric arguments) rather than
  as rendered strings, because the renderings interpolate only
  numerals and therefore contain a given alphabetic search phrase iff
  the template does.
-/

namespace ECAD

/-- Character-level model of `str::split(',')` followed by per-part handling:
splits a character list at every separator, keeping empty parts, as Rust's
`split` does. -/
def chSplit (sep : Char) : List Char → List (List Char)
  | [] => [[]]
  | c :: rest =>
    if c = sep then [] :: chSplit sep rest
    else match chSplit sep rest with
      | [] => [[c]]
      | p :: ps => (c :: p) :: ps

/-- Whitespace predicate used by `str::trim`; the data files are ASCII so
only the ASCII whitespace characters matter. -/
def isWs (c : Char) : Bool := c = ' ' ∨ c = '\t' ∨ c = '\r' ∨ c = '\n'

/-- Character-level model of `str::trim`. -/
def chTrim (cs : List Char) : List Char :=
  ((cs.dropWhile isWs).reverse.dropWhile isWs).reverse

/-- Rust `str::parse::<uN>` digit run: all characters are decimal digits and
the run is non-empty. -/
def chDigits? (cs : List Char) : Option ℕ :=
  if cs ≠ [] ∧ cs.all Char.isDigit then
    some (cs.foldl (fun a c => a * 10 + (c.toNat - 48)) 0)
  else none

/-- Rust unsigned-integer parsing (`str::parse::<u32>` and friends): an
optional leading `+` followed by digits, bounded by the type's range. -/
def chParseUnsigned? (bound : ℕ) (cs : List Char) : Option ℕ :=
  let body := match cs with
    | '+' :: rest => rest
    | other => other
  match chDigits? body with
  | some n => if n < bound then some n else none
  | none => none

/-- Rust `str::parse::<u32>`. -/
def parseU32? (s : String) : Option ℕ := chParseUnsigned? (2 ^ 32) s.toList

/-- Rust `str::parse::<u8>`. -/
def parseU8? (s : String) : Option ℕ := chParseUnsigned? (2 ^ 8) s.toList

/-- Rust `str::parse::<i32>`: optional sign, digits, `i32` range. -/
def parseI32? (s : String) : Option ℤ :=
  match s.toList with
  | '-' :: rest =>
    match chDigits? rest with
    | some n => if (n : ℤ) ≤ 2 ^ 31 then some (-(n : ℤ)) else none
    | none => none
  | cs =>
    match chParseUnsigned? (2 ^ 31) cs with
    | some n => some (n : ℤ)
    | none => none

/-- Executable prefix test on character lists. -/
def chPrefixOf : List Char → List Char → Bool
  | [], _ => true
  | _ :: _, [] => false
  | a :: as, b :: bs => a = b && chPrefixOf as bs

/-- Executable infix test on character lists. -/
def chInfixOf (pat : List Char) : List Char → Bool
  | [] => chPrefixOf pat []
  | b :: bs => chPrefixOf pat (b :: bs) || chInfixOf pat bs

/-- Substring test used by the temperature quality-flag deduplication
(`String::contains(&str)` in `process_temperature_file`). -/
def hasSub (s pat : String) : Bool :=
  chInfixOf pat.toList s.toList

/-- Character membership test (`String::contains(char)`), used by the
quality predicates of `WeatherRecord`. -/
def hasChar (s : String) (c : Char) : Bool :=
  s.toList.any (· = c)

/-- Calendar day, embedding `chrono::NaiveDate`. -/
structure Date where
  y : ℕ
  m : ℕ
  d : ℕ
  deriving DecidableEq, Repr

/-- Lexicographic order on dates; this is `NaiveDate`'s `Ord`. -/
def Date.lex (a b : Date) : Prop :=
  a.y < b.y ∨ (a.y = b.y ∧ (a.m < b.m ∨ (a.m = b.m ∧ a.d ≤ b.d)))

instance : DecidableRel Date.lex := fun a b => by
  unfold Date.lex; infer_instance

/-- Ord::min on dates (`d.min(other)` in the inspector). -/
def Date.minD (a b : Date) : Date := if Date.lex a b then a else b

/-- Ord::max on dates. -/
def Date.maxD (a b : Date) : Date := if Date.lex a b then b else a

/-- Gregorian leap-year rule, as implemented by chrono. -/
def isLeap (y : ℕ) : Bool := (y % 4 = 0 ∧ y % 100 ≠ 0) ∨ y % 400 = 0

/-- Day count of a month, as validated by chrono's date constructor. -/
def daysInMonth (y m : ℕ) : ℕ :=
  if m = 2 then (if isLeap y then 29 else 28)
  else if m = 4 ∨ m = 6 ∨ m = 9 ∨ m = 11 then 30
  else 31

/-- Model of `NaiveDate::parse_from_str(s, "%Y%m%d")` on the archive data
format: eight decimal digits forming a valid calendar date. -/
def parseDateYMD? (s : String) : Option Date :=
  let cs := s.toList
  if cs.length = 8 ∧ cs.all Char.isDigit then
    match chDigits? cs with
    | some n =>
      let y := n / 10000
      let m := n / 100 % 100
      let d := n % 100
      if 1 ≤ m ∧ m ≤ 12 ∧ 1 ≤ d ∧ d ≤ daysInMonth y m then
        some ⟨y, m, d⟩
      else none
    | none => none
  else none

/-- Physical-validity domain (`PhysicalValidity` in `weather.rs`). -/
inductive PhysicalValidity
  | valid
  | suspect
  | invalid
  deriving DecidableEq, Repr

/-- Composite quality domain (`DataQuality` in `weather.rs`). -/
inductive DataQuality
  | valid
  | suspectOriginal
  | suspectRange
  | suspectBoth
  | invalid
  | missing
  deriving DecidableEq, Repr

/-- Temperature sub-kind (`TemperatureType` in `archive/mod.rs`). -/
inductive TemperatureType
  | minimum
  | maximum
  | average
  deriving DecidableEq, Repr

/-- Structured content of the `TemperatureValidation` error message: the
constructor records which `format!` template produced it together with
the interpolated numbers. -/
inductive TvMsg
  | minGtAvg (mn av tol : ℚ)
  | avgGtMax (av mx tol : ℚ)
  | singleOutOfRange (t : ℚ)
  deriving DecidableEq, Repr

/-- Error domain (`ProcessingError` in `error.rs`), restricted to the
constructors exercised by the embedded code paths. -/
inductive ProcessingError
  | invalidFormat (msg : String)
  | invalidQualityFlag (v : ℕ)
  | temperatureValidation (m : TvMsg)
  | validationRanges
  | missingData (field : String)
  deriving DecidableEq, Repr

/-- Test mirroring `e.to_string().contains("Min temperature")` in
`calculate_integrity_report`: the rendered message interpolates only
numerals around the fixed templates, so it contains the phrase exactly
when the template is the min/avg one. -/
def errHasMinTemperaturePhrase : ProcessingError → Bool
  | .temperatureValidation (.minGtAvg _ _ _) => true
  | _ => false

/-- Test mirroring `e.to_string().contains("Avg temperature")`: the phrase
occurs in the min/avg template ("... > Avg temperature ...") and in the
avg/max template. -/
def errHasAvgTemperaturePhrase : ProcessingError → Bool
  | .temperatureValidation (.minGtAvg _ _ _) => true
  | .temperatureValidation (.avgGtMax _ _ _) => true
  | _ => false

/-- Unified weather record (`WeatherRecord` in `weather.rs`). -/
structure WeatherRecord where
  station_id : ℕ
  station_name : String
  date : Date
  latitude : ℚ
  longitude : ℚ
  temp_min : Option ℚ
  temp_max : Option ℚ
  temp_avg : Option ℚ
  precipitation : Option ℚ
  wind_speed : Option ℚ
  temp_quality : Option String
  precip_quality : Option String
  wind_quality : Option String
  temp_validation : Option PhysicalValidity
  precip_validation : Option PhysicalValidity
  wind_validation : Option PhysicalValidity
  deriving DecidableEq, Repr

namespace WeatherRecord

/-- Loop body of `validate_temperature_physics`: walk the present values,
returning `Invalid` at the first value outside [−90, 60], `Suspect` at the
first value outside [−35, 45], `Valid` if the walk finishes. -/
def classifyTemps : List ℚ → PhysicalValidity
  | [] => .valid
  | t :: ts =>
    if ¬(-90 ≤ t ∧ t ≤ 60) then .invalid
    else if ¬(-35 ≤ t ∧ t ≤ 45) then .suspect
    else classifyTemps ts

/-- Model of `WeatherRecord::validate_temperature_physics`. -/
def validateTemperaturePhysics (r : WeatherRecord) : Option PhysicalValidity :=
  let existing := [r.temp_min, r.temp_max, r.temp_avg].filterMap id
  if existing.isEmpty then none else some (classifyTemps existing)

/-- Model of `WeatherRecord::validate_precipitation_physics`. -/
def validatePrecipitationPhysics (r : WeatherRecord) : Option PhysicalValidity :=
  match r.precipitation with
  | some p =>
    if ¬(0 ≤ p ∧ p ≤ 2000) then some .invalid
    else if p > 500 then some .suspect
    else some .valid
  | none => none

/-- Model of `WeatherRecord::validate_wind_physics`. -/
def validateWindPhysics (r : WeatherRecord) : Option PhysicalValidity :=
  match r.wind_speed with
  | some w =>
    if ¬(0 ≤ w ∧ w ≤ 120) then some .invalid
    else if w > 50 then some .suspect
    else some .valid
  | none => none

/-- Model of `WeatherRecord::perform_physical_validation`: recompute all
three assessments from the current metric slots. -/
def performPhysicalValidation (r : WeatherRecord) : WeatherRecord :=
  { r with
    temp_validation := validateTemperaturePhysics r
    precip_validation := validatePrecipitationPhysics r
    wind_validation := validateWindPhysics r }

/-- Range checks generated by the `#[derive(Validate)]` attributes on
`WeatherRecord` (`self.validate()`), with `None` fields passing. -/
def rangesOk (r : WeatherRecord) : Bool :=
  decide (-90 ≤ r.latitude ∧ r.latitude ≤ 90) &&
  decide (-180 ≤ r.longitude ∧ r.longitude ≤ 180) &&
  (r.temp_min.all fun t => decide (-50 ≤ t ∧ t ≤ 50)) &&
  (r.temp_max.all fun t => decide (-50 ≤ t ∧ t ≤ 50)) &&
  (r.temp_avg.all fun t => decide (-50 ≤ t ∧ t ≤ 50)) &&
  (r.precipitation.all fun p => decide (0 ≤ p ∧ p ≤ 1000)) &&
  (r.wind_speed.all fun w => decide (0 ≤ w ∧ w ≤ 100))

/-- Model of `WeatherRecord::validate_relationships`: the tolerance-1.0
ordering checks on a complete temperature triple, then the derived range
validation. -/
def validateRelationships (r : WeatherRecord) : Except ProcessingError Unit :=
  match r.temp_min, r.temp_avg, r.temp_max with
  | some mn, some av, some mx =>
    if mn > av + 1 then
      .error (.temperatureValidation (.minGtAvg mn av 1))
    else if av > mx + 1 then
      .error (.temperatureValidation (.avgGtMax av mx 1))
    else if rangesOk r then .ok () else .error .validationRanges
  | _, _, _ =>
    if rangesOk r then .ok () else .error .validationRanges

/-- Model of `WeatherRecord::has_temperature_data`. -/
def hasTemperatureData (r : WeatherRecord) : Bool :=
  r.temp_min.isSome || r.temp_max.isSome || r.temp_avg.isSome

/-- Model of `WeatherRecord::has_precipitation`. -/
def hasPrecipitation (r : WeatherRecord) : Bool := r.precipitation.isSome

/-- Model of `WeatherRecord::has_wind_speed`. -/
def hasWindSpeed (r : WeatherRecord) : Bool := r.wind_speed.isSome

/-- Model of `WeatherRecord::has_valid_temperature_data`. -/
def hasValidTemperatureData (r : WeatherRecord) : Bool :=
  r.temp_quality = some "000"

/-- Model of `WeatherRecord::has_valid_precipitation_data`. -/
def hasValidPrecipitationData (r : WeatherRecord) : Bool :=
  r.precip_quality = some "0"

/-- Model of `WeatherRecord::has_valid_wind_data`. -/
def hasValidWindData (r : WeatherRecord) : Bool :=
  r.wind_quality = some "0"

/-- Model of `WeatherRecord::has_suspect_data`. -/
def hasSuspectData (r : WeatherRecord) : Bool :=
  (r.temp_quality.any fun q => hasChar q '1') ||
  (r.precip_quality.any fun q => hasChar q '1') ||
  (r.wind_quality.any fun q => hasChar q '1')

/-- Model of `WeatherRecord::has_missing_data`. -/
def hasMissingData (r : WeatherRecord) : Bool :=
  (r.temp_quality.any fun q => hasChar q '9') ||
  (r.precip_quality.any fun q => hasChar q '9') ||
  (r.wind_quality.any fun q => hasChar q '9')

/-- Model of `WeatherRecord::assess_temperature_quality`, with the Rust
match arms transcribed in order; the flag tests are substring tests on
the composite flag string. -/
def assessTemperatureQuality (r : WeatherRecord) : DataQuality :=
  match r.temp_quality, r.temp_validation with
  | some q, v =>
    if hasChar q '9' then .missing
    else if v = some .invalid then .invalid
    else if hasChar q '1' then
      (if v = some .suspect then .suspectBoth else .suspectOriginal)
    else if v = some .suspect then .suspectRange
    else .valid
  | none, v =>
    if v = some .invalid then .invalid
    else if v = some .suspect then .suspectRange
    else .valid

/-- Model of `WeatherRecord::assess_precipitation_quality`; the flag tests
are exact matches on the single-character flag. -/
def assessPrecipitationQuality (r : WeatherRecord) : DataQuality :=
  match r.precip_quality, r.precip_validation with
  | some q, v =>
    if q = "9" then .missing
    else if v = some .invalid then .invalid
    else if q = "1" then
      (if v = some .suspect then .suspectBoth else .suspectOriginal)
    else if v = some .suspect then .suspectRange
    else .valid
  | none, v =>
    if v = some .invalid then .invalid
    else if v = some .suspect then .suspectRange
    else .valid

/-- Model of `WeatherRecord::assess_wind_quality`. -/
def assessWindQuality (r : WeatherRecord) : DataQuality :=
  match r.wind_quality, r.wind_validation with
  | some q, v =>
    if q = "9" then .missing
    else if v = some .invalid then .invalid
    else if q = "1" then
      (if v = some .suspect then .suspectBoth else .suspectOriginal)
    else if v = some .suspect then .suspectRange
    else .valid
  | none, v =>
    if v = some .invalid then .invalid
    else if v = some .suspect then .suspectRange
    else .valid

end WeatherRecord

/-- Source-flag domain (`QualityFlag` in `models/temperature.rs`). -/
inductive QualityFlag
  | valid
  | suspect
  | missing
  deriving DecidableEq, Repr

/-- Model of `QualityFlag::from_u8`: only 0, 1 and 9 are recognised. -/
def qualityFlagFromU8 (v : ℕ) : Except ProcessingError QualityFlag :=
  if v = 0 then .ok .valid
  else if v = 1 then .ok .suspect
  else if v = 9 then .ok .missing
  else .error (.invalidQualityFlag v)

/-- Per-row temperature observation (`TemperatureRecord` in
`models/temperature.rs`). -/
structure TemperatureRecord where
  staid : ℕ
  souid : ℕ
  date : Date
  temperature : ℚ
  quality_flag : ℕ
  deriving DecidableEq, Repr

/-- Model of `TemperatureRecord::new`, which validates the flag through
`QualityFlag::from_u8` before constructing the record. -/
def mkTemperatureRecord (staid souid : ℕ) (date : Date) (temperature : ℚ)
    (quality_flag : ℕ) : Except ProcessingError TemperatureRecord :=
  match qualityFlagFromU8 quality_flag with
  | .error e => .error e
  | .ok _ => .ok ⟨staid, souid, date, temperature, quality_flag⟩

/-- Model of `TemperatureReader::parse_temperature_line`: split on commas,
trim each field, then parse SOUID, DATE, TEMP and Q_FLAG in order.  `Ok
None` skips the row (short line or `-9999` sentinel); parse failures are
errors. -/
def parseTemperatureLine (line : String) (station_id : ℕ) :
    Except ProcessingError (Option TemperatureRecord) :=
  let parts := ((chSplit ',' line.toList).map chTrim).map String.mk
  if parts.length < 4 then .ok none
  else
    match parseU32? (parts.getD 0 "") with
    | none => .error (.invalidFormat ("Invalid source ID: " ++ parts.getD 0 ""))
    | some souid =>
      match parseDateYMD? (parts.getD 1 "") with
      | none => .error (.invalidFormat ("Invalid date format: " ++ parts.getD 1 ""))
      | some date =>
        if parts.getD 2 "" = "-9999" then .ok none
        else
          match parseI32? (parts.getD 2 "") with
          | none => .error (.invalidFormat ("Invalid temperature: " ++ parts.getD 2 ""))
          | some tenths =>
            let temperature : ℚ := (tenths : ℚ) / 10
            match parseU8? (parts.getD 3 "") with
            | none => .error (.invalidFormat ("Invalid quality flag: " ++ parts.getD 3 ""))
            | some flag =>
              match mkTemperatureRecord station_id souid date temperature flag with
              | .error e => .error e
              | .ok r => .ok (some r)

/-- Loop of `TemperatureReader::read_temperatures_buffered` over the decoded
lines of the file: count every line, skip blank lines, skip the first 20
lines when headers are skipped, parse the rest, propagating row errors. -/
def readTempBufferedAux (skipHeaders : Bool) (station_id : ℕ) :
    List String → ℕ → Except ProcessingError (List TemperatureRecord)
  | [], _ => .ok []
  | line :: rest, count =>
    let count := count + 1
    if (chTrim line.toList).isEmpty then
      readTempBufferedAux skipHeaders station_id rest count
    else if skipHeaders ∧ count ≤ 20 then
      readTempBufferedAux skipHeaders station_id rest count
    else
      match parseTemperatureLine line station_id with
      | .error e => .error e
      | .ok none => readTempBufferedAux skipHeaders station_id rest count
      | .ok (some r) =>
        match readTempBufferedAux skipHeaders station_id rest count with
        | .error e => .error e
        | .ok rs => .ok (r :: rs)

/-- Model of `TemperatureReader::read_temperatures_buffered`. -/
def readTemperaturesBuffered (skipHeaders : Bool) (lines : List String)
    (station_id : ℕ) : Except ProcessingError (List TemperatureRecord) :=
  readTempBufferedAux skipHeaders station_id lines 0

/-- Loop of `TemperatureReader::read_temperatures_mmap` over the decoded
lines of the mapped file; the line handling is written out separately to
mirror the separate Rust function. -/
def readTempMmapAux (skipHeaders : Bool) (station_id : ℕ) :
    List String → ℕ → Except ProcessingError (List TemperatureRecord)
  | [], _ => .ok []
  | line :: rest, count =>
    let count := count + 1
    if (chTrim line.toList).isEmpty then
      readTempMmapAux skipHeaders station_id rest count
    else if skipHeaders ∧ count ≤ 20 then
      readTempMmapAux skipHeaders station_id rest count
    else
      match parseTemperatureLine line station_id with
      | .error e => .error e
      | .ok none => readTempMmapAux skipHeaders station_id rest count
      | .ok (some r) =>
        match readTempMmapAux skipHeaders station_id rest count with
        | .error e => .error e
        | .ok rs => .ok (r :: rs)

/-- Model of `TemperatureReader::read_temperatures_mmap`. -/
def readTemperaturesMmap (skipHeaders : Bool) (lines : List String)
    (station_id : ℕ) : Except ProcessingError (List TemperatureRecord) :=
  readTempMmapAux skipHeaders station_id lines 0

/-- Model of Rust `f32` parsing (`str::parse::<f32>`) on the decimal forms
occurring in the data files: optional sign, digit run, optional fractional
digit run.  Exponent and non-finite forms do not occur in the data and are
not modelled. -/
def parseF32? (s : String) : Option ℚ :=
  let (neg, body) := match s.toList with
    | '-' :: rest => (true, rest)
    | '+' :: rest => (false, rest)
    | cs => (false, cs)
  match chSplit '.' body with
  | [intPart] =>
    match chDigits? intPart with
    | some n => some (if neg then -(n : ℚ) else (n : ℚ))
    | none => none
  | [intPart, fracPart] =>
    match chDigits? intPart, chDigits? fracPart with
    | some i, some f =>
      let v : ℚ := (i : ℚ) + (f : ℚ) / (10 ^ fracPart.length)
      some (if neg then -v else v)
    | _, _ => none
  | _ => none

/-- Loop of `ArchiveProcessor::parse_weather_file` over the decoded lines:
count every line, skip blank lines and the first 20 lines, require four
comma-separated fields, parse DATE, skip the `-9999` sentinel, and keep the
row only when VALUE parses as `f32` and Q_FLAG parses as `u8` — malformed
rows are skipped silently. -/
def parseWeatherFileAux : List String → ℕ → List (Date × ℚ × ℕ)
  | [], _ => []
  | line :: rest, count =>
    let count := count + 1
    if (chTrim line.toList).isEmpty then parseWeatherFileAux rest count
    else if count ≤ 20 then parseWeatherFileAux rest count
    else
      let parts := ((chSplit ',' line.toList).map chTrim).map String.mk
      if parts.length < 4 then parseWeatherFileAux rest count
      else
        match parseDateYMD? (parts.getD 1 "") with
        | none => parseWeatherFileAux rest count
        | some date =>
          if parts.getD 2 "" = "-9999" then parseWeatherFileAux rest count
          else
            match parseF32? (parts.getD 2 ""), parseU8? (parts.getD 3 "") with
            | some v, some q => (date, v, q) :: parseWeatherFileAux rest count
            | _, _ => parseWeatherFileAux rest count

/-- Model of `ArchiveProcessor::parse_weather_file`. -/
def parseWeatherFile (lines : List String) : List (Date × ℚ × ℕ) :=
  parseWeatherFileAux lines 0

/-- Station catalog entry (`StationMetadata` in `models/station.rs`),
restricted to the fields the processor reads. -/
structure StationMetadata where
  staid : ℕ
  name : String
  latitude : ℚ
  longitude : ℚ
  deriving DecidableEq, Repr

/-- Key of the in-memory weather map: (station_id, date). -/
def keyOf (r : WeatherRecord) : ℕ × Date := (r.station_id, r.date)

/-- Association-list embedding of the `(station_id, date) → WeatherRecord`
HashMap, in insertion order. -/
abbrev WMap := List ((ℕ × Date) × WeatherRecord)

/-- Record inserted by `entry(key).or_insert_with` in the per-metric file
processors: station identity and coordinates, every metric slot empty.
Both the builder path of `process_temperature_file` (including its
fallback `WeatherRecord::new` closure) and the direct `WeatherRecord::new`
calls of the precipitation/wind processors produce exactly this record;
the automatic physical validation of `new` leaves every assessment absent
because no slot is populated. -/
def emptyRecordFor (st : StationMetadata) (d : Date) : WeatherRecord :=
  WeatherRecord.performPhysicalValidation
    { station_id := st.staid
      station_name := st.name
      date := d
      latitude := st.latitude
      longitude := st.longitude
      temp_min := none, temp_max := none, temp_avg := none
      precipitation := none, wind_speed := none
      temp_quality := none, precip_quality := none, wind_quality := none
      temp_validation := none, precip_validation := none, wind_validation := none }

/-- HashMap `entry(key).or_insert_with(default)` followed by in-place
mutation `f`, on the association-list embedding. -/
def updateEntry (m : WMap) (k : ℕ × Date) (default : WeatherRecord)
    (f : WeatherRecord → WeatherRecord) : WMap :=
  match m with
  | [] => [(k, f default)]
  | (k2, v) :: rest =>
    if k2 = k then (k2, f v) :: rest
    else (k2, v) :: updateEntry rest k default f

/-- Slot mutation of `process_temperature_file` for one observation:
write the slot selected by the temperature type, then append the flag
character to the composite temperature flag unless already present. -/
def applyTempObservation (tt : TemperatureType) (o : TemperatureRecord)
    (wr : WeatherRecord) : WeatherRecord :=
  let wr := match tt with
    | .minimum => { wr with temp_min := some o.temperature }
    | .maximum => { wr with temp_max := some o.temperature }
    | .average => { wr with temp_avg := some o.temperature }
  let qs := toString o.quality_flag
  match wr.temp_quality with
  | some existing =>
    if hasSub existing qs then wr
    else { wr with temp_quality := some (existing ++ qs) }
  | none => { wr with temp_quality := some qs }

/-- Model of `ArchiveProcessor::process_temperature_file` at the level of
already-parsed observations. -/
def processTemperatureFile (st : StationMetadata) (tt : TemperatureType)
    (obs : List TemperatureRecord) (m : WMap) : WMap :=
  obs.foldl
    (fun m o =>
      updateEntry m (o.staid, o.date) (emptyRecordFor st o.date)
        (applyTempObservation tt o))
    m

/-- Model of `ArchiveProcessor::process_precipitation_file` at the level of
already-parsed rows: store `value / 10` and the flag rendered as a
string. -/
def processPrecipitationFile (st : StationMetadata)
    (rows : List (Date × ℚ × ℕ)) (m : WMap) : WMap :=
  rows.foldl
    (fun m row =>
      updateEntry m (st.staid, row.1) (emptyRecordFor st row.1)
        (fun wr =>
          { wr with
            precipitation := some (row.2.1 / 10)
            precip_quality := some (toString row.2.2) }))
    m

/-- Model of `ArchiveProcessor::process_wind_speed_file`. -/
def processWindSpeedFile (st : StationMetadata)
    (rows : List (Date × ℚ × ℕ)) (m : WMap) : WMap :=
  rows.foldl
    (fun m row =>
      updateEntry m (st.staid, row.1) (emptyRecordFor st row.1)
        (fun wr =>
          { wr with
            wind_speed := some (row.2.1 / 10)
            wind_quality := some (toString row.2.2) }))
    m

/-- One parsed per-station data file of one metric, as dispatched by the
metric loop of `ArchiveProcessor::process_data`. -/
inductive MetricFile
  | temp (tt : TemperatureType) (obs : List TemperatureRecord)
  | precip (rows : List (Date × ℚ × ℕ))
  | wind (rows : List (Date × ℚ × ℕ))

/-- Model of the record-producing part of `ArchiveProcessor::process_data`:
fold every parsed file into the map, take the map's values and re-run
physical validation on each.  The per-archive output is not sorted. -/
def processArchiveData (st : StationMetadata) (files : List MetricFile) :
    List WeatherRecord :=
  let m := files.foldl
    (fun m f =>
      match f with
      | .temp tt obs => processTemperatureFile st tt obs m
      | .precip rows => processPrecipitationFile st rows m
      | .wind rows => processWindSpeedFile st rows m)
    ([] : WMap)
  (m.map Prod.snd).map WeatherRecord.performPhysicalValidation

/-- Violation kinds (`ViolationType` in `processors/integrity_checker.rs`). -/
inductive ViolationType
  | minGreaterThanAvg
  | avgGreaterThanMax
  | outOfRange
  | suspiciousJump
  deriving DecidableEq, Repr

/-- Temperature violation entry (`TemperatureViolation`); the `details`
string of the source is carried structurally as the error value it is
rendered from. -/
structure TemperatureViolation where
  station_id : ℕ
  date : Date
  violation_type : ViolationType
  details : ProcessingError
  deriving DecidableEq, Repr

/-- Kind selection of `ArchiveProcessor::calculate_integrity_report`,
which dispatches on the rendered message of the relationship error. -/
def violationKindFor (e : ProcessingError) : ViolationType :=
  if errHasMinTemperaturePhrase e then .minGreaterThanAvg
  else if errHasAvgTemperaturePhrase e then .avgGreaterThanMax
  else .outOfRange

/-- Per-record violation push of `calculate_integrity_report`: one entry
exactly when `validate_relationships` fails. -/
def recordViolation? (r : WeatherRecord) : Option TemperatureViolation :=
  match WeatherRecord.validateRelationships r with
  | .error e => some ⟨r.station_id, r.date, violationKindFor e, e⟩
  | .ok _ => none

/-- Violation list accumulated by the record loop of
`calculate_integrity_report`. -/
def calcTemperatureViolations (records : List WeatherRecord) :
    List TemperatureViolation :=
  records.foldl (fun acc r => acc ++ (recordViolation? r).toList) []

/-- Totals of `IntegrityReport` as computed by
`calculate_integrity_report` (station statistics are not modelled; no
verified claim concerns them). -/
structure IntegrityReport where
  total_records : ℕ
  valid_records : ℕ
  suspect_records : ℕ
  invalid_records : ℕ
  missing_data_records : ℕ
  temperature_violations : List TemperatureViolation
  deriving DecidableEq, Repr

/-- Model of the counting and violation logic of
`ArchiveProcessor::calculate_integrity_report`. -/
def calcIntegrityReport (records : List WeatherRecord) : IntegrityReport where
  total_records := records.length
  valid_records := records.countP fun r =>
    r.hasValidTemperatureData && r.hasValidPrecipitationData && r.hasValidWindData
  suspect_records := records.countP fun r =>
    !(r.hasValidTemperatureData && r.hasValidPrecipitationData && r.hasValidWindData) &&
    r.hasSuspectData
  invalid_records := records.countP fun r => (recordViolation? r).isSome
  missing_data_records := records.countP fun r =>
    !(r.hasValidTemperatureData && r.hasValidPrecipitationData && r.hasValidWindData) &&
    !r.hasSuspectData && r.hasMissingData
  temperature_violations := calcTemperatureViolations records

/-- Model of `MultiArchiveProcessor::merge_weather_records`: reject a
station/date mismatch, let every non-absent source slot and flag
overwrite the target's, and re-run physical validation on the merged
record.  The source mutates the target in place; the model returns the
mutated target. -/
def mergeWeatherRecords (target source : WeatherRecord) :
    Except ProcessingError WeatherRecord :=
  if target.station_id ≠ source.station_id ∨ target.date ≠ source.date then
    .error (.invalidFormat "Cannot merge records: station/date mismatch")
  else
    .ok <| WeatherRecord.performPhysicalValidation
      { target with
        temp_min := if source.temp_min.isSome then source.temp_min else target.temp_min
        temp_max := if source.temp_max.isSome then source.temp_max else target.temp_max
        temp_avg := if source.temp_avg.isSome then source.temp_avg else target.temp_avg
        precipitation :=
          if source.precipitation.isSome then source.precipitation else target.precipitation
        wind_speed :=
          if source.wind_speed.isSome then source.wind_speed else target.wind_speed
        temp_quality :=
          if source.temp_quality.isSome then source.temp_quality else target.temp_quality
        precip_quality :=
          if source.precip_quality.isSome then source.precip_quality else target.precip_quality
        wind_quality :=
          if source.wind_quality.isSome then source.wind_quality else target.wind_quality }

/-- Upsert of one record into the merge map (`record_map.get_mut` /
`merge_weather_records` / `insert` in `merge_records_by_key`). -/
def upsertRecord : WMap → WeatherRecord → Except ProcessingError WMap
  | [], r => .ok [(keyOf r, r)]
  | (k, e) :: rest, r =>
    if k = keyOf r then
      match mergeWeatherRecords e r with
      | .error err => .error err
      | .ok merged => .ok ((k, merged) :: rest)
    else
      match upsertRecord rest r with
      | .error err => .error err
      | .ok tail => .ok ((k, e) :: tail)

/-- Nested record loop of `merge_records_by_key`, over the concatenation
of the per-archive record lists. -/
def insertAllRecords : WMap → List WeatherRecord → Except ProcessingError WMap
  | m, [] => .ok m
  | m, r :: rs =>
    match upsertRecord m r with
    | .error e => .error e
    | .ok m2 => insertAllRecords m2 rs

/-- Sort order of the final `sort_by` in `merge_records_by_key`: station
id ascending, then date ascending. -/
def recLe (a b : WeatherRecord) : Prop :=
  a.station_id < b.station_id ∨
    (a.station_id = b.station_id ∧ Date.lex a.date b.date)

instance : DecidableRel recLe := fun a b => by
  unfold recLe; infer_instance

instance : IsTotal WeatherRecord recLe :=
  ⟨by intro a b; unfold recLe Date.lex; omega⟩

instance : IsTrans WeatherRecord recLe :=
  ⟨by intro a b c hab hbc; unfold recLe Date.lex at *; omega⟩

/-- Dataset composition (`DatasetComposition` in `multi_processor.rs`). -/
structure DatasetComposition where
  total_records : ℕ
  records_with_temperature : ℕ
  records_with_precipitation : ℕ
  records_with_wind_speed : ℕ
  available_metrics : List String
  deriving DecidableEq, Repr

/-- Composition scan at the end of `merge_records_by_key`. -/
def datasetComposition (records : List WeatherRecord) : DatasetComposition :=
  let t := records.countP WeatherRecord.hasTemperatureData
  let p := records.countP WeatherRecord.hasPrecipitation
  let w := records.countP WeatherRecord.hasWindSpeed
  { total_records := records.length
    records_with_temperature := t
    records_with_precipitation := p
    records_with_wind_speed := w
    available_metrics :=
      (if 0 < t then ["temperature"] else []) ++
      (if 0 < p then ["precipitation"] else []) ++
      (if 0 < w then ["wind_speed"] else []) }

/-- Model of `MultiArchiveProcessor::merge_records_by_key`: fold every
archive's records into one map keyed by (station_id, date), take the
values, re-run physical validation, sort by (station_id, date) and
compute the composition. -/
def mergeRecordsByKey (recordsByArchive : List (List WeatherRecord)) :
    Except ProcessingError (List WeatherRecord × DatasetComposition) :=
  match insertAllRecords [] recordsByArchive.flatten with
  | .error e => .error e
  | .ok m =>
    let unified := (m.map Prod.snd).map WeatherRecord.performPhysicalValidation
    let sorted := List.insertionSort recLe unified
    .ok (sorted, datasetComposition sorted)

/-- Option view of an `Except` result (`Result::ok()` in Rust). -/
def exceptOk? {ε α : Type} : Except ε α → Option α
  | .ok a => some a
  | .error _ => none

/-- Loop of `ArchiveInspector::extract_date_range_from_file` over the
decoded lines of one sampled data file.  The source keeps a `lines_read`
counter that is compared against the limits 100 and 20 but is incremented
only after a date parses successfully; the skip condition
`trimmed.is_empty() || lines_read < 20` is transcribed as written. -/
def extractDateRangeAux :
    List String → ℕ → Option Date → Option Date →
    Except ProcessingError (Date × Date)
  | [], _, mn, mx =>
    match mn, mx with
    | some a, some b => .ok (a, b)
    | _, _ => .error (.invalidFormat "No valid dates found in data file")
  | line :: rest, linesRead, mn, mx =>
    if linesRead ≥ 100 then
      match mn, mx with
      | some a, some b => .ok (a, b)
      | _, _ => .error (.invalidFormat "No valid dates found in data file")
    else
      if (chTrim line.toList).isEmpty ∨ linesRead < 20 then
        extractDateRangeAux rest linesRead mn mx
      else
        let parts := ((chSplit ',' line.toList).map chTrim).map String.mk
        if parts.length ≥ 2 then
          match parseDateYMD? (parts.getD 1 "") with
          | some date =>
            extractDateRangeAux rest (linesRead + 1)
              (some ((mn.map (fun d => Date.minD d date)).getD date))
              (some ((mx.map (fun d => Date.maxD d date)).getD date))
          | none => extractDateRangeAux rest linesRead mn mx
        else extractDateRangeAux rest linesRead mn mx

/-- Model of `ArchiveInspector::extract_date_range_from_file`. -/
def extractDateRangeFromFile (lines : List String) :
    Except ProcessingError (Date × Date) :=
  extractDateRangeAux lines 0 none none

/-- Loop of `ArchiveInspector::estimate_date_range` over the sampled data
files (given here as their decoded line lists): stop after five files
whose extraction succeeded, fold successful extractions into the running
minimum and maximum, ignore failures. -/
def estimateDateRangeAux :
    List (List String) → ℕ → Option Date → Option Date →
    Except ProcessingError (Date × Date)
  | [], _, mn, mx =>
    match mn, mx with
    | some a, some b => .ok (a, b)
    | _, _ => .error (.invalidFormat "Could not determine date range from data files")
  | file :: rest, sampled, mn, mx =>
    if sampled ≥ 5 then
      match mn, mx with
      | some a, some b => .ok (a, b)
      | _, _ => .error (.invalidFormat "Could not determine date range from data files")
    else
      match extractDateRangeFromFile file with
      | .ok dates =>
        estimateDateRangeAux rest (sampled + 1)
          (some ((mn.map (fun d => Date.minD d dates.1)).getD dates.1))
          (some ((mx.map (fun d => Date.maxD d dates.2)).getD dates.2))
      | .error _ => estimateDateRangeAux rest sampled mn mx

/-- Model of `ArchiveInspector::estimate_date_range`. -/
def estimateDateRange (files : List (List String)) :
    Except ProcessingError (Date × Date) :=
  estimateDateRangeAux files 0 none none

/-- Date range stored in `ArchiveMetadata` by `inspect_zip`
(`estimate_date_range(..).ok()`). -/
def inspectDateRange (files : List (List String)) : Option (Date × Date) :=
  exceptOk? (estimateDateRange files)

/-- Consolidated temperature record (`ConsolidatedRecord` in
`models/consolidated.rs`); the three temperature fields are mandatory,
with `-9999.0` as the absent sentinel. -/
structure ConsolidatedRecord where
  station_id : ℕ
  station_name : String
  date : Date
  latitude : ℚ
  longitude : ℚ
  min_temp : ℚ
  max_temp : ℚ
  avg_temp : ℚ
  quality_flags : String
  deriving DecidableEq, Repr

namespace ConsolidatedRecord

/-- Range checks generated by `#[derive(Validate)]` on
`ConsolidatedRecord`. -/
def rangesOk (r : ConsolidatedRecord) : Bool :=
  decide (-90 ≤ r.latitude ∧ r.latitude ≤ 90) &&
  decide (-180 ≤ r.longitude ∧ r.longitude ≤ 180) &&
  decide (-50 ≤ r.min_temp ∧ r.min_temp ≤ 50) &&
  decide (-50 ≤ r.max_temp ∧ r.max_temp ≤ 50) &&
  decide (-50 ≤ r.avg_temp ∧ r.avg_temp ≤ 50)

/-- Model of `ConsolidatedRecord::validate_relationships` (tolerance 1.0,
then the derived range validation). -/
def validateRelationships (r : ConsolidatedRecord) :
    Except ProcessingError Unit :=
  if r.min_temp > r.avg_temp + 1 then
    .error (.temperatureValidation (.minGtAvg r.min_temp r.avg_temp 1))
  else if r.avg_temp > r.max_temp + 1 then
    .error (.temperatureValidation (.avgGtMax r.avg_temp r.max_temp 1))
  else if rangesOk r then .ok () else .error .validationRanges

end ConsolidatedRecord

/-- Out-of-range scan of `IntegrityChecker::check_temperature_ranges`:
each of min/max/avg that is not the `-9999` sentinel and lies outside
[MIN_VALID_TEMP, MAX_VALID_TEMP] = [−50, 50] appends one `OutOfRange`
violation. -/
def checkTemperatureRanges (r : ConsolidatedRecord) :
    List TemperatureViolation :=
  [r.min_temp, r.max_temp, r.avg_temp].filterMap fun t =>
    if t ≠ -9999 ∧ ¬(-50 ≤ t ∧ t ≤ 50) then
      some ⟨r.station_id, r.date, .outOfRange, .temperatureValidation (.singleOutOfRange t)⟩
    else none

/-- Violations appended by `IntegrityChecker::check_record` for one
record: a relationship failure is recorded with the hard-coded kind
`MinGreaterThanAvg` (the source always passes this constructor,
whatever the failing inequality), followed by the range scan. -/
def checkRecordViolations (r : ConsolidatedRecord) :
    List TemperatureViolation :=
  (match ConsolidatedRecord.validateRelationships r with
    | .error e => [⟨r.station_id, r.date, .minGreaterThanAvg, e⟩]
    | .ok _ => []) ++
  checkTemperatureRanges r

/-- Filesystem effect of the columnar writer, for the frame conditions of
the write entry points. -/
inductive FsEffect
  | create (path : String)
  | writeBatch (rows : ℕ)
  | close
  deriving DecidableEq, Repr

/-- Model of `ParquetWriter::write_records`: an empty slice returns `Ok`
before any filesystem interaction; otherwise the batch is assembled, the
file at `path` is created and the single batch is written and closed.
The effect trace records the filesystem interactions in order. -/
def writeRecords (records : List ConsolidatedRecord) (path : String) :
    Except ProcessingError (List FsEffect) :=
  if records.isEmpty then .ok []
  else .ok [FsEffect.create path, FsEffect.writeBatch records.length, FsEffect.close]

/-- Model of `ParquetWriter::write_weather_records`, which has the same
control flow over `WeatherRecord` rows. -/
def writeWeatherRecords (records : List WeatherRecord) (path : String) :
    Except ProcessingError (List FsEffect) :=
  if records.isEmpty then .ok []
  else .ok [FsEffect.create path, FsEffect.writeBatch records.length, FsEffect.close]

/-- Composite-quality table of §4.8 of the specification, written from
the spec's words for the refinement comparison: the first matching row
of (source-flag indicates 9, source-flag indicates 1, physical validity)
decides the outcome. -/
def specCompositeOutcome (flag9 flag1 : Bool) (v : Option PhysicalValidity) :
    DataQuality :=
  if flag9 then .missing
  else if v = some .invalid then .invalid
  else if flag1 && decide (v = some .suspect) then .suspectBoth
  else if flag1 then .suspectOriginal
  else if v = some .suspect then .suspectRange
  else .valid

/-- Temperature flag test of the claim: the composite flag string
contains the character 9. -/
def tempFlagHas9 (r : WeatherRecord) : Bool :=
  (r.temp_quality.map fun q => hasChar q '9').getD false

/-- Temperature flag test of the claim: the composite flag string
contains the character 1. -/
def tempFlagHas1 (r : WeatherRecord) : Bool :=
  (r.temp_quality.map fun q => hasChar q '1').getD false

/-- Modelled from the spec: worst-across-present-values temperature
validation as the claim states it — Invalid when any present value lies
outside [−90, 60], else Suspect when any present value lies outside
[−35, 45], else Valid; absent when no value is present. -/
def specWorstTempValidation (r : WeatherRecord) : Option PhysicalValidity :=
  let existing := [r.temp_min, r.temp_max, r.temp_avg].filterMap id
  if existing.isEmpty then none
  else if existing.any fun t => decide ¬(-90 ≤ t ∧ t ≤ 60) then some .invalid
  else if existing.any fun t => decide ¬(-35 ≤ t ∧ t ≤ 45) then some .suspect
  else some .valid

/-- First-offender temperature validation, the amended claim: the result
is decided by the first present value, in (min, max, avg) order, that
falls outside the suspect range [−35, 45] — Invalid when that value also
lies outside [−90, 60], else Suspect; Valid when no present value falls
outside [−35, 45]; absent when no value is present. -/
def firstOffenderTempValidation (r : WeatherRecord) : Option PhysicalValidity :=
  let existing := [r.temp_min, r.temp_max, r.temp_avg].filterMap id
  if existing.isEmpty then none
  else
    match existing.find? (fun t => decide ¬(-35 ≤ t ∧ t ≤ 45)) with
    | none => some .valid
    | some t => some (if ¬(-90 ≤ t ∧ t ≤ 60) then .invalid else .suspect)

/-- Record exercising the first-offender behaviour of the temperature
validation loop: the minimum (50 °C) is merely suspect while the maximum
(100 °C) is physically impossible. -/
def rFirstOffender : WeatherRecord :=
  ⟨257, "S", ⟨2023, 1, 1⟩, 51, 0, some 50, some 100, none, none, none,
    some "0", none, none, none, none, none⟩

lemma classifyTemps_find? (ts : List ℚ) :
    WeatherRecord.classifyTemps ts =
      match ts.find? (fun t => decide ¬(-35 ≤ t ∧ t ≤ 45)) with
      | none => .valid
      | some t => if ¬(-90 ≤ t ∧ t ≤ 60) then .invalid else .suspect := by
  induction ts with
  | nil => rfl
  | cons t ts ih =>
    by_cases h35 : (-35 ≤ t ∧ t ≤ 45)
    · have h90 : (-90 ≤ t ∧ t ≤ 60) := ⟨by linarith [h35.1], by linarith [h35.2]⟩
      simp [WeatherRecord.classifyTemps, List.find?, h35, h90, ih]
    · simp [WeatherRecord.classifyTemps, List.find?, h35]

/-- C1: for every WeatherRecord, the composite quality of each metric
family equals the unique outcome of the §4.8 table applied to the family's
flag tests and physical validity — for temperature the flag tests are
substring tests on the composite flag string, for precipitation and wind
they are exact matches of the single-character flag against "9" and "1".
Totality holds because the table (and the code match) is a function of the
pair. -/
theorem c1_composite_quality_table (r : WeatherRecord) :
    r.assessTemperatureQuality =
      specCompositeOutcome (tempFlagHas9 r) (tempFlagHas1 r) r.temp_validation ∧
    r.assessPrecipitationQuality =
      specCompositeOutcome (decide (r.precip_quality = some "9"))
        (decide (r.precip_quality = some "1")) r.precip_validation ∧
    r.assessWindQuality =
      specCompositeOutcome (decide (r.wind_quality = some "9"))
        (decide (r.wind_quality = some "1")) r.wind_validation := by
  refine ⟨?_, ?_, ?_⟩
  · unfold WeatherRecord.assessTemperatureQuality specCompositeOutcome tempFlagHas9 tempFlagHas1
    cases hq : r.temp_quality with
    | none => simp
    | some q =>
      cases h9 : hasChar q '9' <;> cases h1 : hasChar q '1' <;>
        cases hv : r.temp_validation <;> simp [h9, h1]
  · unfold WeatherRecord.assessPrecipitationQuality specCompositeOutcome
    cases hq : r.precip_quality with
    | none => simp
    | some q =>
      by_cases h9 : q = "9" <;> by_cases h1 : q = "1" <;>
        cases hv : r.precip_validation <;> simp [h9, h1]
  · unfold WeatherRecord.assessWindQuality specCompositeOutcome
    cases hq : r.wind_quality with
    | none => simp
    | some q =>
      by_cases h9 : q = "9" <;> by_cases h1 : q = "1" <;>
        cases hv : r.wind_validation <;> simp [h9, h1]

/-- C2 counterexample: on a record with temp_min = 50 °C (suspect) and
temp_max = 100 °C (physically impossible), the validation loop returns
Suspect for the first offending value instead of the worst assessment
Invalid demanded by the claim. -/
theorem c2_counterexample_first_offender_beats_worst :
    (WeatherRecord.performPhysicalValidation rFirstOffender).temp_validation =
        some PhysicalValidity.suspect ∧
    specWorstTempValidation rFirstOffender = some PhysicalValidity.invalid ∧
    (WeatherRecord.performPhysicalValidation rFirstOffender).temp_validation ≠
      specWorstTempValidation rFirstOffender := by
  refine ⟨by decide, by decide, by decide⟩

/-- C2 amended: perform_physical_validation sets temp_validation to the
assessment of the first present value, in (min, max, avg) order, that
falls outside [−35, 45] — Invalid when that value is outside [−90, 60],
else Suspect — Valid when no present value falls outside [−35, 45], and
absent when none of the three values is present. -/
theorem c2_temp_validation_first_offender (r : WeatherRecord) :
    (WeatherRecord.performPhysicalValidation r).temp_validation =
      firstOffenderTempValidation r := by
  show WeatherRecord.validateTemperaturePhysics r = firstOffenderTempValidation r
  unfold WeatherRecord.validateTemperaturePhysics firstOffenderTempValidation
  by_cases h : ([r.temp_min, r.temp_max, r.temp_avg].filterMap id).isEmpty
  · simp [h]
  · simp only [h, if_false]
    rw [classifyTemps_find?]
    cases hf : ([r.temp_min, r.temp_max, r.temp_avg].filterMap id).find?
        (fun t => decide ¬(-35 ≤ t ∧ t ≤ 45)) <;> simp [hf]

/-- C8: the buffered reader and the memory-mapped reader produce identical
record sequences for the same decoded input lines, header setting and
station id. -/
theorem c8_buffered_eq_mmap (skipHeaders : Bool) (lines : List String)
    (station_id : ℕ) :
    readTemperaturesBuffered skipHeaders lines station_id =
      readTemperaturesMmap skipHeaders lines station_id := by
  show readTempBufferedAux skipHeaders station_id lines 0 =
    readTempMmapAux skipHeaders station_id lines 0
  generalize 0 = n
  induction lines generalizing n with
  | nil => rfl
  | cons line rest ih =>
    unfold readTempBufferedAux readTempMmapAux
    simp only [ih]

/-- C10: writing an empty record slice through either entry point returns
Ok with an empty filesystem-effect trace — no file at the output path is
created or modified. -/
theorem c10_empty_write_no_file (path : String) :
    writeRecords [] path = .ok [] ∧ writeWeatherRecords [] path = .ok [] :=
  ⟨rfl, rfl⟩

lemma extractDateRangeAux_stuck (lines : List String) :
    extractDateRangeAux lines 0 none none =
      .error (.invalidFormat "No valid dates found in data file") := by
  induction lines with
  | nil => rfl
  | cons line rest ih =>
    unfold extractDateRangeAux
    simp [ih]

lemma estimateDateRangeAux_stuck (files : List (List String)) (sampled : ℕ) :
    estimateDateRangeAux files sampled none none =
      .error (.invalidFormat "Could not determine date range from data files") := by
  induction files generalizing sampled with
  | nil => rfl
  | cons file rest ih =>
    unfold estimateDateRangeAux
    have hext : extractDateRangeFromFile file =
        .error (.invalidFormat "No valid dates found in data file") :=
      extractDateRangeAux_stuck file
    by_cases h5 : sampled ≥ 5 <;> simp [h5, hext, ih]

/-- C7: the skip condition of extract_date_range_from_file tests the
lines_read counter, but that counter is incremented only after a date
parses, which the skip condition itself prevents; consequently every line
of every file is skipped, the per-file extraction always fails, and the
inspector's date_range is None for every archive — including archives
whose data files contain parseable data lines. -/
theorem c7_date_range_always_none :
    (∀ lines : List String,
      extractDateRangeFromFile lines =
        .error (.invalidFormat "No valid dates found in data file")) ∧
    (∀ files : List (List String), inspectDateRange files = none) := by
  constructor
  · intro lines
    exact extractDateRangeAux_stuck lines
  · intro files
    unfold inspectDateRange estimateDateRange
    rw [estimateDateRangeAux_stuck]
    rfl

/-- Twenty nonempty header-ish lines, as at the top of every data file. -/
def headerLines : List String := List.replicate 20 "H"

/-- Data row whose fourth field is the integer 5, outside {0, 1, 9}. -/
def badTempLine : String := "101,20230101,125,5"

/-- Well-formed data row following the bad row. -/
def goodTempLine : String := "101,20230102,130,0"

/-- Precipitation/wind data row with source flag 5. -/
def badPrecipLine : String := "101,20230101,25,5"

lemma readTempBufferedAux_cons (sh : Bool) (sid : ℕ) (line : String)
    (rest : List String) (count : ℕ) :
    readTempBufferedAux sh sid (line :: rest) count =
      if (chTrim line.toList).isEmpty then
        readTempBufferedAux sh sid rest (count + 1)
      else if sh ∧ count + 1 ≤ 20 then
        readTempBufferedAux sh sid rest (count + 1)
      else
        match parseTemperatureLine line sid with
        | .error e => .error e
        | .ok none => readTempBufferedAux sh sid rest (count + 1)
        | .ok (some r) =>
          match readTempBufferedAux sh sid rest (count + 1) with
          | .error e => .error e
          | .ok rs => .ok (r :: rs) := rfl

lemma readTempBufferedAux_append (sh : Bool) (sid : ℕ) (xs ys : List String)
    (n : ℕ) :
    readTempBufferedAux sh sid (xs ++ ys) n =
      match readTempBufferedAux sh sid xs n with
      | .error e => .error e
      | .ok rs =>
        match readTempBufferedAux sh sid ys (n + xs.length) with
        | .error e => .error e
        | .ok rs2 => .ok (rs ++ rs2) := by
  induction xs generalizing n with
  | nil =>
    cases h : readTempBufferedAux sh sid ys n <;>
      simp [readTempBufferedAux, h]
  | cons x xs ih =>
    have harith : n + (xs.length + 1) = n + 1 + xs.length := by omega
    rw [List.cons_append, readTempBufferedAux_cons, readTempBufferedAux_cons,
      List.length_cons, harith]
    by_cases h1 : (chTrim x.toList).isEmpty
    · rw [if_pos h1, if_pos h1, ih]
    · rw [if_neg h1, if_neg h1]
      by_cases h2 : sh ∧ n + 1 ≤ 20
      · rw [if_pos h2, if_pos h2, ih]
      · rw [if_neg h2, if_neg h2]
        cases hp : parseTemperatureLine x sid with
        | error e => rfl
        | ok o =>
          cases o with
          | none => exact ih (n + 1)
          | some r =>
            rw [ih]
            cases hxs : readTempBufferedAux sh sid xs (n + 1) with
            | error e2 => rfl
            | ok rs =>
              cases hys : readTempBufferedAux sh sid ys (n + 1 + xs.length) <;> simp

lemma parseWeatherFileAux_cons (line : String) (rest : List String) (count : ℕ) :
    parseWeatherFileAux (line :: rest) count =
      if (chTrim line.toList).isEmpty then parseWeatherFileAux rest (count + 1)
      else if count + 1 ≤ 20 then parseWeatherFileAux rest (count + 1)
      else
        if (((chSplit ',' line.toList).map chTrim).map String.mk).length < 4 then
          parseWeatherFileAux rest (count + 1)
        else
          match parseDateYMD?
              ((((chSplit ',' line.toList).map chTrim).map String.mk).getD 1 "") with
          | none => parseWeatherFileAux rest (count + 1)
          | some date =>
            if (((chSplit ',' line.toList).map chTrim).map String.mk).getD 2 "" = "-9999" then
              parseWeatherFileAux rest (count + 1)
            else
              match parseF32?
                  ((((chSplit ',' line.toList).map chTrim).map String.mk).getD 2 ""),
                parseU8?
                  ((((chSplit ',' line.toList).map chTrim).map String.mk).getD 3 "") with
              | some v, some q => (date, v, q) :: parseWeatherFileAux rest (count + 1)
              | _, _ => parseWeatherFileAux rest (count + 1) := rfl

lemma parseWeatherFileAux_append (xs ys : List String) (n : ℕ) :
    parseWeatherFileAux (xs ++ ys) n =
      parseWeatherFileAux xs n ++ parseWeatherFileAux ys (n + xs.length) := by
  induction xs generalizing n with
  | nil => simp [parseWeatherFileAux]
  | cons x xs ih =>
    have harith : n + (xs.length + 1) = n + 1 + xs.length := by omega
    rw [List.cons_append, parseWeatherFileAux_cons, parseWeatherFileAux_cons,
      List.length_cons, harith]
    by_cases h1 : (chTrim x.toList).isEmpty
    · rw [if_pos h1, if_pos h1, ih]
    · rw [if_neg h1, if_neg h1]
      by_cases h2 : n + 1 ≤ 20
      · rw [if_pos h2, if_pos h2, ih]
      · rw [if_neg h2, if_neg h2]
        by_cases h3 : (((chSplit ',' x.toList).map chTrim).map String.mk).length < 4
        · rw [if_pos h3, if_pos h3, ih]
        · rw [if_neg h3, if_neg h3]
          cases hd : parseDateYMD?
              ((((chSplit ',' x.toList).map chTrim).map String.mk).getD 1 "") with
          | none => exact ih (n + 1)
          | some date =>
            dsimp only
            by_cases h4 :
                (((chSplit ',' x.toList).map chTrim).map String.mk).getD 2 "" = "-9999"
            · rw [if_pos h4, if_pos h4, ih]
            · rw [if_neg h4, if_neg h4]
              cases hv : parseF32?
                  ((((chSplit ',' x.toList).map chTrim).map String.mk).getD 2 "") with
              | none => exact ih (n + 1)
              | some v =>
                cases hq : parseU8?
                    ((((chSplit ',' x.toList).map chTrim).map String.mk).getD 3 "") with
                | none => exact ih (n + 1)
                | some q => rw [ih]; rfl

lemma parseTemperatureLine_bad (sid : ℕ) :
    parseTemperatureLine badTempLine sid = .error (.invalidQualityFlag 5) := rfl

lemma readTempBufferedAux_bad (sid : ℕ) (post : List String) (n : ℕ)
    (h : 20 ≤ n) :
    readTempBufferedAux true sid (badTempLine :: post) n =
      .error (.invalidQualityFlag 5) := by
  rw [readTempBufferedAux_cons,
    if_neg (show ¬((chTrim badTempLine.toList).isEmpty = true) from by decide),
    if_neg (show ¬(true = true ∧ n + 1 ≤ 20) from by omega),
    parseTemperatureLine_bad]

lemma parseWeatherFileAux_bad (post : List String) (n : ℕ) (h : 20 ≤ n) :
    parseWeatherFileAux (badPrecipLine :: post) n =
      (⟨2023, 1, 1⟩, 25, 5) :: parseWeatherFileAux post (n + 1) := by
  have hval : parseF32? "25" = some 25 := by
    show some ((25 : ℕ) : ℚ) = some 25
    norm_num
  rw [parseWeatherFileAux_cons,
    if_neg (show ¬((chTrim badPrecipLine.toList).isEmpty = true) from by decide),
    if_neg (show ¬(n + 1 ≤ 20) from by omega),
    show ((chSplit ',' badPrecipLine.toList).map chTrim).map String.mk =
      ["101", "20230101", "25", "5"] from by decide]
  rw [show (["101", "20230101", "25", "5"] : List String).getD 1 "" = "20230101" from rfl,
    show (["101", "20230101", "25", "5"] : List String).getD 2 "" = "25" from rfl,
    show (["101", "20230101", "25", "5"] : List String).getD 3 "" = "5" from rfl,
    show parseDateYMD? "20230101" = some ⟨2023, 1, 1⟩ from by decide]
  have h9999 : (("25" : String) = "-9999") = False := by decide
  simp [hval, h9999, show parseU8? "5" = some 5 from by decide]

/-- C4 counterexample: a temperature data file containing a row with
source flag 5 followed by a well-formed row makes the whole read fail —
the parser does not skip just the offending row and continue — while the
precipitation/wind parser accepts the flag-5 row outright, yielding an
observation for it rather than rejecting it. -/
theorem c4_counterexample_flag_outside_domain :
    readTemperaturesBuffered true (headerLines ++ [badTempLine, goodTempLine]) 257 =
        .error (.invalidQualityFlag 5) ∧
    parseWeatherFile (headerLines ++ [badPrecipLine]) = [(⟨2023, 1, 1⟩, 25, 5)] := by
  constructor
  · show readTempBufferedAux true 257 (headerLines ++ [badTempLine, goodTempLine]) 0 =
      .error (.invalidQualityFlag 5)
    rw [readTempBufferedAux_append]
    have hpre : readTempBufferedAux true 257 headerLines 0 = .ok [] := rfl
    rw [hpre, readTempBufferedAux_bad 257 [goodTempLine] (0 + headerLines.length)
      (by decide)]
  · show parseWeatherFileAux (headerLines ++ [badPrecipLine]) 0 = _
    rw [parseWeatherFileAux_append,
      parseWeatherFileAux_bad [] (0 + headerLines.length) (by decide)]
    have hpre : parseWeatherFileAux headerLines 0 = [] := rfl
    simp [hpre, parseWeatherFileAux]

/-- C4 amended: a data row whose fourth field is an integer outside
{0, 1, 9} (witnessed at 5) is not merely rejected with parsing continuing.
In a temperature file, after any error-free prefix of at least the 20
header lines, such a row aborts the whole file read with
InvalidQualityFlag, and no observation of the file is yielded; in a
precipitation or wind file such a row is accepted, contributing an
observation that carries the out-of-domain flag, with parsing continuing
around it. -/
theorem c4_amended_flag_outside_domain :
    (∀ (pre post : List String) (sid : ℕ) (rs : List TemperatureRecord),
        readTempBufferedAux true sid pre 0 = .ok rs → 20 ≤ pre.length →
        readTemperaturesBuffered true (pre ++ badTempLine :: post) sid =
          .error (.invalidQualityFlag 5)) ∧
    (∀ pre post : List String, 20 ≤ pre.length →
        parseWeatherFile (pre ++ badPrecipLine :: post) =
          parseWeatherFileAux pre 0 ++
            (⟨2023, 1, 1⟩, 25, 5) :: parseWeatherFileAux post (pre.length + 1)) := by
  constructor
  · intro pre post sid rs hpre hlen
    show readTempBufferedAux true sid (pre ++ badTempLine :: post) 0 = _
    rw [readTempBufferedAux_append, hpre,
      readTempBufferedAux_bad sid post (0 + pre.length) (by omega)]
  · intro pre post hlen
    show parseWeatherFileAux (pre ++ badPrecipLine :: post) 0 = _
    rw [parseWeatherFileAux_append,
      parseWeatherFileAux_bad post (0 + pre.length) (by omega)]
    simp

/-- C4 witness: the amended statement applied to a file of exactly the 20
header lines followed by the flag-5 row. -/
theorem c4_amended_witness :
    readTemperaturesBuffered true (headerLines ++ badTempLine :: []) 257 =
        .error (.invalidQualityFlag 5) ∧
    parseWeatherFile (headerLines ++ badPrecipLine :: []) =
      parseWeatherFileAux headerLines 0 ++
        (⟨2023, 1, 1⟩, 25, 5) :: parseWeatherFileAux [] (headerLines.length + 1) :=
  ⟨c4_amended_flag_outside_domain.1 headerLines [] 257 [] rfl (by decide),
   c4_amended_flag_outside_domain.2 headerLines [] (by decide)⟩

/-- Consolidated record whose temperature triple fails only the second
ordering inequality: avg (30) exceeds max (10) by more than the
tolerance, while min (10) does not exceed avg plus the tolerance. -/
def cAvgOverMax : ConsolidatedRecord :=
  ⟨300, "S", ⟨2023, 7, 15⟩, 51, 0, 10, 10, 30, "000"⟩

/-- C9: on a record where the avg ≤ max + tolerance inequality is the one
that fails, `IntegrityChecker::check_record` appends exactly one
violation, but its kind is the hard-coded `MinGreaterThanAvg`, not the
`AvgGreaterThanMax` that the claim (and the parallel selection logic in
`ArchiveProcessor::calculate_integrity_report`) prescribes — even though
the violation's own details text describes an Avg > Max failure. -/
theorem c9_check_record_hardcodes_min_kind :
    ConsolidatedRecord.validateRelationships cAvgOverMax =
        .error (.temperatureValidation (.avgGtMax 30 10 1)) ∧
    checkRecordViolations cAvgOverMax =
      [⟨300, ⟨2023, 7, 15⟩, .minGreaterThanAvg,
        .temperatureValidation (.avgGtMax 30 10 1)⟩] ∧
    violationKindFor (.temperatureValidation (.avgGtMax 30 10 1)) =
      .avgGreaterThanMax := by
  have hrel : ConsolidatedRecord.validateRelationships cAvgOverMax =
      .error (.temperatureValidation (.avgGtMax 30 10 1)) := by
    unfold ConsolidatedRecord.validateRelationships cAvgOverMax
    norm_num
  refine ⟨hrel, ?_, by decide⟩
  unfold checkRecordViolations
  have hranges : checkTemperatureRanges cAvgOverMax = [] := by decide
  rw [hrel, hranges]
  rfl

/-- S2 station used by the pipeline counterexample. -/
def stS2 : StationMetadata := ⟨257, "TEST STATION", 51, 0⟩

/-- S2 date. -/
def dS2 : Date := ⟨2023, 7, 15⟩

/-- Parsed TN/TX/TG observations of scenario S2: raw values 200, 100 and
150 tenths, i.e. min 20 °C, max 10 °C, avg 15 °C, all with flag 0. -/
def s2Files : List MetricFile :=
  [.temp .minimum [⟨257, 101, dS2, 20, 0⟩],
   .temp .maximum [⟨257, 101, dS2, 10, 0⟩],
   .temp .average [⟨257, 101, dS2, 15, 0⟩]]

/-- C5 counterexample: the archive pipeline emits the S2 record with
temp_min = 20, temp_avg = 15, temp_max = 10, which violates the claimed
invariant temp_min ≤ temp_avg + 1.0. -/
theorem c5_counterexample_ordering_violated_record_emitted :
    (processArchiveData stS2 s2Files).map
        (fun r => (r.temp_min, r.temp_avg, r.temp_max)) =
      [(some 20, some 15, some 10)] ∧
    ¬((20 : ℚ) ≤ 15 + 1) := by
  constructor
  · rfl
  · norm_num

lemma calcTemperatureViolations_eq_filterMap_aux :
    ∀ (rs : List WeatherRecord) (acc : List TemperatureViolation),
      rs.foldl (fun acc r => acc ++ (recordViolation? r).toList) acc =
        acc ++ rs.filterMap recordViolation? := by
  intro rs
  induction rs with
  | nil => intro acc; simp
  | cons r rs ih =>
    intro acc
    cases hv : recordViolation? r <;>
      simp [List.filterMap_cons, hv, ih]

lemma calcTemperatureViolations_eq_filterMap (records : List WeatherRecord) :
    calcTemperatureViolations records = records.filterMap recordViolation? := by
  unfold calcTemperatureViolations
  rw [calcTemperatureViolations_eq_filterMap_aux]
  simp

/-- C5 amended: the pipeline emits records whose temperature triple
violates the tolerance ordering (scenario S2); the ordering is not an
invariant of the emitted output.  Instead, the integrity report's
violation list is exactly the per-record filterMap of the relationship
check — each record contributes exactly one violation when the check
fails and none otherwise — and every record in the emitted set whose
complete triple fails one of the two inequalities contributes exactly
one violation, which carries the record's station_id and date. -/
theorem c5_amended_violating_records_reported
    (records : List WeatherRecord) (r : WeatherRecord) (mn av mx : ℚ)
    (hmem : r ∈ records) (hmn : r.temp_min = some mn) (hav : r.temp_avg = some av)
    (hmx : r.temp_max = some mx) (hviol : mn > av + 1 ∨ av > mx + 1) :
    (calcIntegrityReport records).temperature_violations =
        records.filterMap recordViolation? ∧
    ∃ v, recordViolation? r = some v ∧
      v.station_id = r.station_id ∧ v.date = r.date := by
  have herr : ∃ e, WeatherRecord.validateRelationships r = .error e := by
    unfold WeatherRecord.validateRelationships
    rw [hmn, hav, hmx]
    dsimp only
    by_cases h1 : mn > av + 1
    · exact ⟨_, by rw [if_pos h1]⟩
    · have h2 : av > mx + 1 := hviol.resolve_left h1
      exact ⟨_, by rw [if_neg h1, if_pos h2]⟩
  obtain ⟨e, herr⟩ := herr
  have hsome : recordViolation? r =
      some ⟨r.station_id, r.date, violationKindFor e, e⟩ := by
    unfold recordViolation?
    rw [herr]
  exact ⟨calcTemperatureViolations_eq_filterMap records,
    ⟨r.station_id, r.date, violationKindFor e, e⟩, hsome, rfl, rfl⟩

/-- Record with min 20, avg 15, max 10 for the C5 witness. -/
def rvC5 : WeatherRecord :=
  ⟨257, "S", dS2, 51, 0, some 20, some 10, some 15, none, none,
    some "0", none, none, none, none, none⟩

/-- C5 witness: the amended statement applied to the singleton record set
containing the S2-shaped violating record. -/
theorem c5_amended_witness :
    (calcIntegrityReport [rvC5]).temperature_violations =
        [rvC5].filterMap recordViolation? ∧
    ∃ v, recordViolation? rvC5 = some v ∧
      v.station_id = rvC5.station_id ∧ v.date = rvC5.date :=
  c5_amended_violating_records_reported [rvC5] rvC5 20 15 10
    (by simp) rfl rfl rfl (by norm_num)

/-- Temperature-only record of archive A for the C6 counterexample; its
station name and coordinates differ from archive B's copy of the same
station. -/
def rTempA : WeatherRecord :=
  ⟨257, "LONDON A", ⟨2023, 1, 1⟩, 51, 0, some 10, some 20, some 15,
    none, none, some "0", none, none, none, none, none⟩

/-- Precipitation-only record of archive B for the same (station, date),
carrying a different station name and different coordinates. -/
def rPrecipB : WeatherRecord :=
  ⟨257, "LONDON B", ⟨2023, 1, 1⟩, 52, 1, none, none, none,
    some 5, none, none, some "0", none, none, none, none⟩

/-- C6 counterexample: with the same (station_id, date) but differing
station_name/latitude/longitude, both merge orders succeed yet produce
records that differ — merge keeps the target's station fields, so the two
orders are not interchangeable. -/
theorem c6_counterexample_merge_order_visible :
    exceptOk? (mergeWeatherRecords rTempA rPrecipB) ≠ none ∧
    exceptOk? (mergeWeatherRecords rTempA rPrecipB) ≠
      exceptOk? (mergeWeatherRecords rPrecipB rTempA) := by
  refine ⟨by decide, by decide⟩

lemma preferSome_left_any {α : Type} (x : Option α) :
    (if x.isSome then x else none) = x := by cases x <;> rfl

lemma performPhysicalValidation_congr_nonvalidation (r1 r2 : WeatherRecord)
    (h1 : r1.station_id = r2.station_id) (h2 : r1.station_name = r2.station_name)
    (h3 : r1.date = r2.date) (h4 : r1.latitude = r2.latitude)
    (h5 : r1.longitude = r2.longitude) (h6 : r1.temp_min = r2.temp_min)
    (h7 : r1.temp_max = r2.temp_max) (h8 : r1.temp_avg = r2.temp_avg)
    (h9 : r1.precipitation = r2.precipitation) (h10 : r1.wind_speed = r2.wind_speed)
    (h11 : r1.temp_quality = r2.temp_quality)
    (h12 : r1.precip_quality = r2.precip_quality)
    (h13 : r1.wind_quality = r2.wind_quality) :
    WeatherRecord.performPhysicalValidation r1 =
      WeatherRecord.performPhysicalValidation r2 := by
  cases r1
  cases r2
  simp only at h1 h2 h3 h4 h5 h6 h7 h8 h9 h10 h11 h12 h13
  subst h1 h2 h3 h4 h5 h6 h7 h8 h9 h10 h11 h12 h13
  rfl

/-- C6 amended: merging a temperature-only record A and a
precipitation-only record B for the same (station_id, date) is
order-independent provided A and B also agree on station_name, latitude
and longitude (merge keeps the target's copies of those fields, so the
agreement is necessary — see the counterexample). -/
theorem c6_amended_disjoint_merge_commutes (A B : WeatherRecord)
    (hid : A.station_id = B.station_id) (hdate : A.date = B.date)
    (hname : A.station_name = B.station_name)
    (hlat : A.latitude = B.latitude) (hlon : A.longitude = B.longitude)
    (hBtm : B.temp_min = none) (hBtx : B.temp_max = none)
    (hBta : B.temp_avg = none) (hBtq : B.temp_quality = none)
    (hAp : A.precipitation = none) (hApq : A.precip_quality = none)
    (hAw : A.wind_speed = none) (hAwq : A.wind_quality = none)
    (hBw : B.wind_speed = none) (hBwq : B.wind_quality = none) :
    mergeWeatherRecords A B = mergeWeatherRecords B A := by
  unfold mergeWeatherRecords
  rw [if_neg (show ¬(A.station_id ≠ B.station_id ∨ A.date ≠ B.date) from by
        simp [hid, hdate]),
    if_neg (show ¬(B.station_id ≠ A.station_id ∨ B.date ≠ A.date) from by
        simp [hid, hdate])]
  refine congrArg Except.ok
    (performPhysicalValidation_congr_nonvalidation _ _ ?_ ?_ ?_ ?_ ?_ ?_ ?_ ?_ ?_ ?_ ?_ ?_ ?_) <;>
    simp [hid, hdate, hname, hlat, hlon, hBtm, hBtx, hBta, hBtq, hAp, hApq,
      hAw, hAwq, hBw, hBwq, preferSome_left_any]

/-- Archive-A record with the same station fields as the B record below,
for the C6 witness. -/
def rTempAW : WeatherRecord :=
  ⟨257, "LONDON", ⟨2023, 1, 1⟩, 51, 0, some 10, some 20, some 15,
    none, none, some "0", none, none, none, none, none⟩

/-- Archive-B record agreeing with `rTempAW` on station identity, name
and coordinates, contributing only precipitation. -/
def rPrecipBW : WeatherRecord :=
  ⟨257, "LONDON", ⟨2023, 1, 1⟩, 51, 0, none, none, none,
    some 5, none, none, some "0", none, none, none, none⟩

/-- C6 witness: the amended statement applied to two concrete records
that agree on the station fields. -/
theorem c6_amended_witness :
    mergeWeatherRecords rTempAW rPrecipBW = mergeWeatherRecords rPrecipBW rTempAW :=
  c6_amended_disjoint_merge_commutes rTempAW rPrecipBW rfl rfl rfl rfl rfl
    rfl rfl rfl rfl rfl rfl rfl rfl rfl rfl

lemma mergeWeatherRecords_keeps_key (e r v : WeatherRecord)
    (h : mergeWeatherRecords e r = .ok v) :
    v.station_id = e.station_id ∧ v.date = e.date := by
  unfold mergeWeatherRecords at h
  by_cases hc : (e.station_id ≠ r.station_id ∨ e.date ≠ r.date)
  · rw [if_pos hc] at h
    exact absurd h (by simp)
  · rw [if_neg hc] at h
    injection h with h
    subst h
    exact ⟨rfl, rfl⟩

lemma upsertRecord_assoc (r : WeatherRecord) :
    ∀ (m m' : WMap), (∀ p ∈ m, p.1 = keyOf p.2) → upsertRecord m r = .ok m' →
      ∀ p ∈ m', p.1 = keyOf p.2 := by
  intro m
  induction m with
  | nil =>
    intro m' _ h p hp
    injection h with h
    subst h
    rcases List.mem_singleton.mp hp with rfl
    rfl
  | cons kv rest ih =>
    obtain ⟨k, e⟩ := kv
    intro m' hinv h
    simp only [upsertRecord] at h
    by_cases hk : k = keyOf r
    · rw [if_pos hk] at h
      cases hm : mergeWeatherRecords e r with
      | error err => rw [hm] at h; exact absurd h (by simp)
      | ok merged =>
        rw [hm] at h
        injection h with h
        subst h
        intro p hp
        rcases List.mem_cons.mp hp with rfl | hp
        · have he : k = keyOf e := hinv (k, e) (by simp)
          have hkeep := mergeWeatherRecords_keeps_key e r merged hm
          show k = keyOf merged
          rw [he]
          unfold keyOf
          rw [hkeep.1, hkeep.2]
        · exact hinv p (List.mem_cons_of_mem _ hp)
    · rw [if_neg hk] at h
      cases ht : upsertRecord rest r with
      | error err => rw [ht] at h; exact absurd h (by simp)
      | ok tail =>
        rw [ht] at h
        injection h with h
        subst h
        intro p hp
        rcases List.mem_cons.mp hp with rfl | hp
        · exact hinv (k, e) (by simp)
        · exact ih tail (fun q hq => hinv q (List.mem_cons_of_mem _ hq)) ht p hp

lemma upsertRecord_keys (r : WeatherRecord) :
    ∀ (m m' : WMap), upsertRecord m r = .ok m' →
      m'.map Prod.fst =
        if keyOf r ∈ m.map Prod.fst then m.map Prod.fst
        else m.map Prod.fst ++ [keyOf r] := by
  intro m
  induction m with
  | nil =>
    intro m' h
    injection h with h
    subst h
    simp
  | cons kv rest ih =>
    obtain ⟨k, e⟩ := kv
    intro m' h
    simp only [upsertRecord] at h
    by_cases hk : k = keyOf r
    · rw [if_pos hk] at h
      cases hm : mergeWeatherRecords e r with
      | error err => rw [hm] at h; exact absurd h (by simp)
      | ok merged =>
        rw [hm] at h
        injection h with h
        subst h
        simp [hk]
    · rw [if_neg hk] at h
      cases ht : upsertRecord rest r with
      | error err => rw [ht] at h; exact absurd h (by simp)
      | ok tail =>
        rw [ht] at h
        injection h with h
        subst h
        have htail := ih tail ht
        simp only [List.map_cons]
        by_cases hmem : keyOf r ∈ rest.map Prod.fst
        · rw [if_pos hmem] at htail
          rw [if_pos (by simp [hmem]), htail]
        · rw [if_neg hmem] at htail
          rw [if_neg (show ¬(keyOf r ∈ k :: rest.map Prod.fst) from by
              simp only [List.mem_cons, hmem, or_false]
              exact fun hkr => hk hkr.symm),
            htail, List.cons_append]

lemma insertAllRecords_inv :
    ∀ (rs : List WeatherRecord) (m m' : WMap),
      (m.map Prod.fst).Nodup → (∀ p ∈ m, p.1 = keyOf p.2) →
      insertAllRecords m rs = .ok m' →
      (m'.map Prod.fst).Nodup ∧ (∀ p ∈ m', p.1 = keyOf p.2) := by
  intro rs
  induction rs with
  | nil =>
    intro m m' hnd hinv h
    injection h with h
    subst h
    exact ⟨hnd, hinv⟩
  | cons r rs ih =>
    intro m m' hnd hinv h
    simp only [insertAllRecords] at h
    cases hup : upsertRecord m r with
    | error e => rw [hup] at h; exact absurd h (by simp)
    | ok m2 =>
      rw [hup] at h
      have hkeys := upsertRecord_keys r m m2 hup
      have hinv2 := upsertRecord_assoc r m m2 hinv hup
      have hnd2 : (m2.map Prod.fst).Nodup := by
        rw [hkeys]
        by_cases hmem : keyOf r ∈ m.map Prod.fst
        · rw [if_pos hmem]; exact hnd
        · rw [if_neg hmem]
          simp [List.nodup_append, hnd, hmem]
      exact ih m2 m' hnd2 hinv2 h

/-- C3: whenever the multi-archive merge succeeds, the emitted sequence
is sorted by (station_id, date) ascending, and no two emitted records
share the same (station_id, date) pair. -/
theorem c3_merged_output_sorted_unique (rss : List (List WeatherRecord))
    (out : List WeatherRecord)
    (h : (exceptOk? (mergeRecordsByKey rss)).map Prod.fst = some out) :
    List.Sorted recLe out ∧ (out.map keyOf).Nodup := by
  unfold mergeRecordsByKey at h
  cases hins : insertAllRecords [] rss.flatten with
  | error e =>
    rw [hins] at h
    exact absurd h (by simp [exceptOk?])
  | ok m =>
    rw [hins] at h
    simp only [exceptOk?, Option.map_some'] at h
    obtain rfl := (Option.some.injEq _ _).mp h
    obtain ⟨hnd, hinv⟩ :=
      insertAllRecords_inv rss.flatten [] m (by simp) (by simp) hins
    constructor
    · exact List.sorted_insertionSort recLe _
    · have hperm :
          List.Perm
            (List.insertionSort recLe
              ((m.map Prod.snd).map WeatherRecord.performPhysicalValidation))
            ((m.map Prod.snd).map WeatherRecord.performPhysicalValidation) :=
        List.perm_insertionSort _ _
      have hmap :
          ((m.map Prod.snd).map WeatherRecord.performPhysicalValidation).map keyOf =
            m.map Prod.fst := by
        rw [List.map_map, List.map_map]
        exact List.map_congr_left fun p hp => (hinv p hp).symm
      rw [(hperm.map keyOf).nodup_iff, hmap]
      exact hnd

/-- First station's record for the C3 witness; its stored validation
fields already agree with what physical validation computes. -/
def w1C3 : WeatherRecord :=
  ⟨1, "W1", ⟨2023, 1, 1⟩, 51, 0, some 10, some 20, some 15, none, none,
    some "0", none, none, some .valid, none, none⟩

/-- Second station's record for the C3 witness. -/
def w2C3 : WeatherRecord :=
  ⟨2, "W2", ⟨2023, 1, 2⟩, 51, 0, none, none, none, some 5, none,
    none, some "0", none, none, some .valid, none⟩

/-- C3 witness: the sortedness and uniqueness statement applied to the
merge of two concrete single-record archives. -/
theorem c3_witness :
    List.Sorted recLe [w1C3, w2C3] ∧ (([w1C3, w2C3]).map keyOf).Nodup :=
  c3_merged_output_sorted_unique [[w1C3], [w2C3]] [w1C3, w2C3] rfl

end ECAD
